import Mathlib

/-!
Verification development for the `PhotoCards` animation driver
(`src/components/christmas/PhotoCards.tsx`).

The driver is embedded shallowly:
  * exact numeric constants and the cover-fit crop are modelled over `ℚ`
    (the source arithmetic on them is exact at these magnitudes);
  * the trigonometric layout generators (`generateTreePhotoPosition`,
    `generateGalaxyPhotoPosition`) are modelled over `ℝ`, with the calls to
    `Math.random()` made explicit sample parameters in `[0,1)`;
  * the card store, its reconciliation effect and the per-frame spring
    integrator are modelled over `ℚ`, with the sampled layout positions
    entering as per-index data (the `photoData` rows), and the JavaScript
    `||` fallback on numbers (`0` is falsy) modelled explicitly;
  * the asynchronous texture loader is modelled by its completion callback
    acting on the card list, a texture being identified by the source URL
    it was decoded from.
-/

namespace PhotoCards

/-- Permanent photo database (the built-in default source list). -/
def PERMANENT_PHOTOS : List String :=
  ["/picture/12c4d7e60b6d8e78c5890f63c93c9d20.JPG",
   "/picture/1a37b000db75c8b0849b5ee3770c621e.JPG",
   "/picture/36fef6375fc7b236b205832d2ba799aa.JPG",
   "/picture/42c014aa95b7f848ecb0788c863f5282.JPG",
   "/picture/IMG_0133.JPG",
   "/picture/IMG_0129.JPG",
   "/picture/3b5a847c5437cdc522ad86ce8a1fb9d0.JPG",
   "/picture/14ac68aa2d4b1cb51d01bc3cba30d03a.JPG",
   "/picture/1edef4a7bef884c903a53d412649130f.JPG",
   "/picture/IMG_9295.JPG"]

/-- `getDefaultPhotos` returns the permanent photo database. -/
def getDefaultPhotos : List String := PERMANENT_PHOTOS

/-- Spring physics constant `SPRING_STIFFNESS = 25`. -/
def SPRING_STIFFNESS : ℚ := 25

/-- Spring physics constant `SPRING_DAMPING = 8`. -/
def SPRING_DAMPING : ℚ := 8

/-- Spring physics constant `SCALE_STIFFNESS = 30`. -/
def SCALE_STIFFNESS : ℚ := 30

/-- Spring physics constant `SCALE_DAMPING = 10`. -/
def SCALE_DAMPING : ℚ := 10

/-- Card dimension constant `photoWidth = 0.75`. -/
def photoWidth : ℚ := 0.75

/-- Card dimension constant `photoHeight = 0.95`. -/
def photoHeight : ℚ := 0.95

/-- Cover crop of a texture against the photo area, from `applyTextureCover`:
given the source image pixel dimensions it returns the
`(repeat, offset)` pair written into the texture, each a `(x, y)` pair.
`cardAspect = photoWidth / photoHeight` is the target aspect ratio. -/
def applyTextureCover (imageWidth imageHeight : ℚ) : (ℚ × ℚ) × (ℚ × ℚ) :=
  let cardAspect := photoWidth / photoHeight
  let imageAspect := imageWidth / imageHeight
  if imageAspect > cardAspect then
    let scale := cardAspect / imageAspect
    ((scale, 1), ((1 - scale) / 2, 0))
  else
    let scale := imageAspect / cardAspect
    ((1, scale), (0, (1 - scale) / 2))

/-- C4: for every image with positive width and height, the cover-fit
transform applies `s = targetAspect / sourceAspect` horizontally (with
`offsetX = (1−s)/2`, `offsetY = 0`, full vertical extent) when
`sourceAspect > targetAspect`, and `s = sourceAspect / targetAspect`
vertically (with `offsetX = 0`, `offsetY = (1−s)/2`, full horizontal
extent) otherwise; a source aspect equal to the target aspect yields
scale `(1,1)` and offset `(0,0)`, and a source twice as wide as the
target yields horizontal scale `0.5` with `offsetX = 0.25`. -/
theorem applyTextureCover_cover_fit (imageWidth imageHeight : ℚ)
    (hw : 0 < imageWidth) (hh : 0 < imageHeight) :
    (imageWidth / imageHeight > photoWidth / photoHeight →
      applyTextureCover imageWidth imageHeight =
        (((photoWidth / photoHeight) / (imageWidth / imageHeight), 1),
         ((1 - (photoWidth / photoHeight) / (imageWidth / imageHeight)) / 2, 0))) ∧
    (¬ imageWidth / imageHeight > photoWidth / photoHeight →
      applyTextureCover imageWidth imageHeight =
        ((1, (imageWidth / imageHeight) / (photoWidth / photoHeight)),
         (0, (1 - (imageWidth / imageHeight) / (photoWidth / photoHeight)) / 2))) ∧
    (imageWidth / imageHeight = photoWidth / photoHeight →
      applyTextureCover imageWidth imageHeight = ((1, 1), (0, 0))) ∧
    (imageWidth / imageHeight = 2 * (photoWidth / photoHeight) →
      applyTextureCover imageWidth imageHeight = ((1/2, 1), (1/4, 0))) := by
  refine ⟨fun hgt => ?_, fun hle => ?_, fun heq => ?_, fun h2 => ?_⟩
  · simp only [applyTextureCover, if_pos hgt]
  · simp only [applyTextureCover, if_neg hle]
  · have hle : ¬ imageWidth / imageHeight > photoWidth / photoHeight := by
      rw [heq]; exact lt_irrefl _
    simp only [applyTextureCover, if_neg hle, heq]
    norm_num [photoWidth, photoHeight]
  · have hgt : imageWidth / imageHeight > photoWidth / photoHeight := by
      rw [h2]; norm_num [photoWidth, photoHeight]
    simp only [applyTextureCover, if_pos hgt, h2]
    norm_num [photoWidth, photoHeight]

/-- Witness for C4 at a concrete image of size 30 × 19 (aspect exactly twice
the target aspect `15/19`). -/
theorem applyTextureCover_cover_fit_witness :
    (0:ℚ) < 30 ∧ (0:ℚ) < 19 ∧
      applyTextureCover 30 19 = ((1/2, 1), (1/4, 0)) :=
  ⟨by norm_num, by norm_num,
    (applyTextureCover_cover_fit 30 19 (by norm_num) (by norm_num)).2.2.2
      (by norm_num [photoWidth, photoHeight])⟩

/-- C10: for every image with positive width and height, the cover crop
window stays inside the unit texture square: each repeat component lies in
`(0, 1]`, each offset component equals `(1 − repeat)/2` and lies in
`[0, 1/2)`, and `offset + repeat ≤ 1` on each axis. -/
theorem applyTextureCover_unit_square (imageWidth imageHeight : ℚ)
    (hw : 0 < imageWidth) (hh : 0 < imageHeight) :
    (0 < (applyTextureCover imageWidth imageHeight).1.1 ∧
      (applyTextureCover imageWidth imageHeight).1.1 ≤ 1) ∧
    (0 < (applyTextureCover imageWidth imageHeight).1.2 ∧
      (applyTextureCover imageWidth imageHeight).1.2 ≤ 1) ∧
    (applyTextureCover imageWidth imageHeight).2.1 =
      (1 - (applyTextureCover imageWidth imageHeight).1.1) / 2 ∧
    (applyTextureCover imageWidth imageHeight).2.2 =
      (1 - (applyTextureCover imageWidth imageHeight).1.2) / 2 ∧
    (0 ≤ (applyTextureCover imageWidth imageHeight).2.1 ∧
      (applyTextureCover imageWidth imageHeight).2.1 < 1/2) ∧
    (0 ≤ (applyTextureCover imageWidth imageHeight).2.2 ∧
      (applyTextureCover imageWidth imageHeight).2.2 < 1/2) ∧
    (applyTextureCover imageWidth imageHeight).2.1 +
      (applyTextureCover imageWidth imageHeight).1.1 ≤ 1 ∧
    (applyTextureCover imageWidth imageHeight).2.2 +
      (applyTextureCover imageWidth imageHeight).1.2 ≤ 1 := by
  have ha : 0 < imageWidth / imageHeight := div_pos hw hh
  have hc : (0:ℚ) < photoWidth / photoHeight := by norm_num [photoWidth, photoHeight]
  simp only [applyTextureCover]
  split_ifs with hcase
  · have hs0 : 0 < photoWidth / photoHeight / (imageWidth / imageHeight) :=
      div_pos hc ha
    have hs1 : photoWidth / photoHeight / (imageWidth / imageHeight) < 1 :=
      (div_lt_one ha).mpr hcase
    refine ⟨⟨hs0, hs1.le⟩, ⟨one_pos, le_refl 1⟩, rfl, by norm_num,
      ⟨by linarith, by linarith⟩, ⟨le_refl 0, by norm_num⟩, by linarith, by norm_num⟩
  · have hs0 : 0 < imageWidth / imageHeight / (photoWidth / photoHeight) :=
      div_pos ha hc
    have hs1 : imageWidth / imageHeight / (photoWidth / photoHeight) ≤ 1 :=
      (div_le_one hc).mpr (not_lt.mp hcase)
    refine ⟨⟨one_pos, le_refl 1⟩, ⟨hs0, hs1⟩, by norm_num, rfl,
      ⟨le_refl 0, by norm_num⟩, ⟨by linarith, by linarith⟩, by norm_num, by linarith⟩

/-- Witness for C10 at a concrete 4 × 3 image. -/
theorem applyTextureCover_unit_square_witness :
    (0:ℚ) < 4 ∧ (0:ℚ) < 3 ∧
      (0 ≤ (applyTextureCover 4 3).2.1 ∧ (applyTextureCover 4 3).2.1 < 1/2) :=
  ⟨by norm_num, by norm_num,
    (applyTextureCover_unit_square 4 3 (by norm_num) (by norm_num)).2.2.2.2.1⟩

/-- Exact model of the `THREE.Vector3` values the driver manipulates. -/
structure Vec3 where
  x : ℚ
  y : ℚ
  z : ℚ
deriving DecidableEq, Repr

/-- `Vector3.add`, componentwise. -/
def Vec3.add (a b : Vec3) : Vec3 := ⟨a.x + b.x, a.y + b.y, a.z + b.z⟩

/-- `Vector3.sub`, componentwise. -/
def Vec3.sub (a b : Vec3) : Vec3 := ⟨a.x - b.x, a.y - b.y, a.z - b.z⟩

/-- `Vector3.multiplyScalar`. -/
def Vec3.smul (a : Vec3) (k : ℚ) : Vec3 := ⟨a.x * k, a.y * k, a.z * k⟩

/-- A texture handle, identified by the source it was decoded from
(`THREE.Texture` itself is an opaque external resource). -/
abbrev Texture := String

/-- The externally supplied layout mode (`TreeState` from
`@/types/christmas`, external to this component): the driver only ever
compares it against the literal `"tree"`, every other value selecting the
galaxy layout. -/
abbrev TreeState := String

/-- JavaScript `a || b` applied to numbers: `0` is falsy and falls through
to the default. -/
def jsOrQ (a b : ℚ) : ℚ := if a = 0 then b else a

/-- The scale a freshly created card starts at
(`scale: existing?.scale || 0.4`). -/
def initialScale : ℚ := 0.4

/-- The target scale of a focused card (`targetScale = isFocused ? 5 : 0.4`). -/
def focusedScale : ℚ := 5

/-- The target scale of a non-focused card. -/
def ambientScale : ℚ := 0.4

/-- The fixed focused target position `new THREE.Vector3(0, 0, 0.8)` in
front of the viewpoint. -/
def focusedPoint : Vec3 := ⟨0, 0, 0.8⟩

/-- One row of `photoData`: the url together with the tree and galaxy
positions sampled for that index. -/
structure PhotoDatum where
  url : String
  treePosition : Vec3
  galaxyPosition : Vec3
deriving DecidableEq, Repr

/-- The mutable per-card record `CardData`. -/
structure CardData where
  treePosition : Vec3
  galaxyPosition : Vec3
  position : Vec3
  velocity : Vec3
  scale : ℚ
  scaleVelocity : ℚ
  texture : Option Texture
  textureUrl : String
  time : ℚ
deriving DecidableEq, Repr

/-- The effective source list
(`photos && photos.length > 0 ? photos : getDefaultPhotos()`):
an absent or empty input list falls back to the built-in defaults. -/
def effectivePhotoUrls (photos : Option (List String)) : List String :=
  match photos with
  | some l => if l.length > 0 then l else getDefaultPhotos
  | none => getDefaultPhotos

/-- The `photoData` memo:
`photoUrls.slice(0, 12).map((url, i) => ({url, treePosition:
generateTreePhotoPosition(i, Math.min(photoUrls.length, 12)),
galaxyPosition: generateGalaxyPhotoPosition()}))`.
The two generators enter as per-index data: `treeAt i total` stands for
`generateTreePhotoPosition(i, total)` and `galaxyAt i` for the value
returned by the `i`-th fresh call to the random sampler
`generateGalaxyPhotoPosition()` — the memo recomputes, and hence resamples
every row's galaxy position, whenever `photoUrls` changes. -/
def photoData (urls : List String) (treeAt : ℕ → ℕ → Vec3)
    (galaxyAt : ℕ → Vec3) : List PhotoDatum :=
  (urls.take 12).mapIdx fun i url =>
    ⟨url, treeAt i (min urls.length 12), galaxyAt i⟩

/-- The reconciliation effect
(`cardDataRef.current = photoData.map((photo, i) => ...)`): each new card
takes the new row's tree and galaxy positions, keeps the existing card's
kinematic state when one exists at the same index (with the JavaScript
`||` fallbacks: a `0` scale or time falls back), clears the texture when
the url changed, and stamps the new url. `freshTime i` stands for the
`Math.random() * Math.PI * 2` drawn for a card without a usable time. -/
def reconcile (freshTime : ℕ → ℚ) (old : List CardData)
    (pd : List PhotoDatum) : List CardData :=
  pd.mapIdx fun i photo =>
    let existing := old[i]?
    let urlChanged := existing.map CardData.textureUrl ≠ some photo.url
    { treePosition := photo.treePosition
      galaxyPosition := photo.galaxyPosition
      position := match existing with
        | some e => e.position
        | none => photo.treePosition
      velocity := match existing with
        | some e => e.velocity
        | none => ⟨0, 0, 0⟩
      scale := match existing with
        | some e => jsOrQ e.scale initialScale
        | none => initialScale
      scaleVelocity := match existing with
        | some e => jsOrQ e.scaleVelocity 0
        | none => 0
      texture := if urlChanged then none else existing.bind CardData.texture
      textureUrl := photo.url
      time := match existing with
        | some e => jsOrQ e.time (freshTime i)
        | none => freshTime i }

/-- The texture loader's success callback for the request issued at index
`i` for `url`: it guards only on a card existing at that index
(`if (cardDataRef.current[i])`) and then writes the texture and the url it
was loaded for. -/
def onTextureLoaded (cards : List CardData) (i : ℕ) (url : String)
    (tex : Texture) : List CardData :=
  match cards[i]? with
  | some card => cards.set i { card with texture := some tex, textureUrl := url }
  | none => cards

/-- Position spring integration from the `useFrame` body: displacement,
spring force, damping force, acceleration, then velocity and position
updates in place. Returns the updated `(position, velocity)`. -/
def integratePosition (position velocity targetPos : Vec3) (dt : ℚ) :
    Vec3 × Vec3 :=
  let displacement := position.sub targetPos
  let springForce := displacement.smul (-SPRING_STIFFNESS)
  let dampingForce := velocity.smul (-SPRING_DAMPING)
  let acceleration := springForce.add dampingForce
  let velocity2 := velocity.add (acceleration.smul dt)
  let position2 := position.add (velocity2.smul dt)
  (position2, velocity2)

/-- Scale spring integration from the `useFrame` body. Returns the updated
`(scale, scaleVelocity)`. -/
def integrateScale (scale scaleVelocity targetScale dt : ℚ) : ℚ × ℚ :=
  let scaleDisplacement := scale - targetScale
  let scaleSpringForce := -SCALE_STIFFNESS * scaleDisplacement
  let scaleDampingForce := -SCALE_DAMPING * scaleVelocity
  let scaleVelocity2 := scaleVelocity + (scaleSpringForce + scaleDampingForce) * dt
  (scale + scaleVelocity2 * dt, scaleVelocity2)

/-- Target position selection from the `useFrame` body:
`isFocused ? (0,0,0.8) : state === 'tree' ? treePosition : galaxyPosition`. -/
def cardTargetPos (state : TreeState) (focusedIndex : Option ℕ) (i : ℕ)
    (card : CardData) : Vec3 :=
  if focusedIndex = some i then focusedPoint
  else if state = "tree" then card.treePosition
  else card.galaxyPosition

/-- Target scale selection from the `useFrame` body. -/
def cardTargetScale (focusedIndex : Option ℕ) (i : ℕ) : ℚ :=
  if focusedIndex = some i then focusedScale else ambientScale

/-- One `useFrame` tick for the card at index `i`: clamp the timestep,
advance the phase accumulator, select targets, and run both springs. -/
def stepCardFrame (state : TreeState) (focusedIndex : Option ℕ) (i : ℕ)
    (delta : ℚ) (card : CardData) : CardData :=
  let dt := min delta 0.033
  let targetPos := cardTargetPos state focusedIndex i card
  let targetScale := cardTargetScale focusedIndex i
  let pv := integratePosition card.position card.velocity targetPos dt
  let ssv := integrateScale card.scale card.scaleVelocity targetScale dt
  { card with
      time := card.time + dt
      position := pv.1
      velocity := pv.2
      scale := ssv.1
      scaleVelocity := ssv.2 }

/-- The semi-implicit spring scheme exactly as the spec words it for one
axis: `displacement = position − target`;
`accel = −stiffness·displacement − damping·velocity`;
`velocity += accel·dt`; `position += velocity·dt`. Stated from the spec for
comparison with the embedded integrator; returns the updated
`(position, velocity)`. -/
def springSpecAxis (p v target stiffness damping dt : ℚ) : ℚ × ℚ :=
  let displacement := p - target
  let accel := -stiffness * displacement - damping * v
  let v2 := v + accel * dt
  (p + v2 * dt, v2)

/-- Tree layout `generateTreePhotoPosition(index, total)`: vertical helix
with height span 7, maximum radius 2.8, radius shrinking with height. -/
noncomputable def generateTreePhotoPosition (index total : ℕ) : ℝ × ℝ × ℝ :=
  let height : ℝ := 7
  let maxRadius : ℝ := 2.8
  let t : ℝ := ((index : ℝ) + 0.5) / (total : ℝ)
  let y := t * height - height / 2 + 0.5
  let radius := maxRadius * (1 - t * 0.85)
  let angle := t * Real.pi * 10 + (index : ℝ) * Real.pi * 0.5
  (Real.cos angle * radius, y, Real.sin angle * radius)

/-- Galaxy layout `generateGalaxyPhotoPosition()`, with the three
`Math.random()` draws made explicit parameters `u1 u2 u3 ∈ [0,1)`:
radius `4 + u1·6`, azimuth `u2·π·2`, polar angle `acos(2·u3 − 1)`, and the
vertical component flattened by the factor `0.5`. -/
noncomputable def generateGalaxyPhotoPosition (u1 u2 u3 : ℝ) : ℝ × ℝ × ℝ :=
  let radius := 4 + u1 * 6
  let theta := u2 * Real.pi * 2
  let phi := Real.arccos (2 * u3 - 1)
  (radius * Real.sin phi * Real.cos theta,
   radius * Real.sin phi * Real.sin theta * 0.5,
   radius * Real.cos phi)

/-- The galaxy sample point before the vertical flattening factor `0.5`
is applied to its second component. -/
noncomputable def galaxyPreFlatten (u1 u2 u3 : ℝ) : ℝ × ℝ × ℝ :=
  let radius := 4 + u1 * 6
  let theta := u2 * Real.pi * 2
  let phi := Real.arccos (2 * u3 - 1)
  (radius * Real.sin phi * Real.cos theta,
   radius * Real.sin phi * Real.sin theta,
   radius * Real.cos phi)

/-- A concrete card kept across a reconciliation (its source stays `"B"`). -/
def oldCardKeep : CardData :=
  ⟨⟨1, 1, 0⟩, ⟨3, 3, 3⟩, ⟨2, 2, 2⟩, ⟨0, 1, 0⟩, 1/2, 1/8, some "decoded:B", "B", 1⟩

/-- A concrete card whose source is about to change from `"A"` to `"A2"`,
currently mid-motion (nonzero velocity). -/
def oldCardChanged : CardData :=
  ⟨⟨1, 0, 0⟩, ⟨2, 0, 0⟩, ⟨1, 1, 1⟩, ⟨0, 2, 0⟩, 2/5, 0, some "decoded:A", "A", 1⟩

/-- A concrete tree-position table standing for
`generateTreePhotoPosition` in store-level scenarios. -/
def sampleTreeAt : ℕ → ℕ → Vec3 := fun _ _ => ⟨0, 0, 0⟩

/-- A concrete draw of fresh galaxy samples: the resample drawn during a
reconciliation (fresh `Math.random()` values, almost surely different from
the previous draw). -/
def sampleGalaxyAt : ℕ → Vec3 := fun _ => ⟨9, 9, 9⟩

/-- A concrete card at index 0 after its source changed to `"B"` and the
newer acquisition for `"B"` already completed. -/
def cardAfterSwap : CardData :=
  ⟨⟨0, 0, 0⟩, ⟨1, 1, 1⟩, ⟨0, 0, 0⟩, ⟨0, 0, 0⟩, 2/5, 0, some "decoded:B", "B", 1⟩

/-- A concrete card used to witness target selection. -/
def sampleCard : CardData :=
  ⟨⟨1, 2, 3⟩, ⟨4, 5, 6⟩, ⟨0, 0, 0⟩, ⟨0, 0, 0⟩, 2/5, 0, none, "A", 1⟩

theorem jsOrQ_self_zero (a : ℚ) : jsOrQ a 0 = a := by
  unfold jsOrQ
  split_ifs with h
  · exact h.symm
  · rfl

theorem getElem?_mapIdx {α β : Type} (l : List α) (f : ℕ → α → β) (i : ℕ) :
    (l.mapIdx f)[i]? = (l[i]?).map (f i) := by
  rcases Nat.lt_or_ge i l.length with h | h
  · have h2 : i < (l.mapIdx f).length := by
      simpa [List.length_mapIdx] using h
    rw [List.getElem?_eq_getElem h2, List.getElem?_eq_getElem h, Option.map_some']
    simpa using List.get_mapIdx l f i h
  · have h2 : (l.mapIdx f).length ≤ i := by
      simpa [List.length_mapIdx] using h
    rw [List.getElem?_eq_none h2, List.getElem?_eq_none h]
    rfl

/-- C5: every per-frame spring step uses the timestep `dt = min(delta, 0.033)`
(so `dt ≤ 0.033`), advances the phase by `dt`, and updates position and
velocity on each axis — and scale with its own constants — by exactly the
semi-implicit scheme `displacement = position − target`;
`accel = −stiffness·displacement − damping·velocity`;
`velocity += accel·dt`; `position += velocity·dt`. -/
theorem useFrame_semi_implicit (state : TreeState) (focusedIndex : Option ℕ)
    (i : ℕ) (delta : ℚ) (card : CardData) :
    min delta 0.033 ≤ 0.033 ∧
    (stepCardFrame state focusedIndex i delta card).time =
      card.time + min delta 0.033 ∧
    (stepCardFrame state focusedIndex i delta card).position.x =
      (springSpecAxis card.position.x card.velocity.x
        (cardTargetPos state focusedIndex i card).x
        SPRING_STIFFNESS SPRING_DAMPING (min delta 0.033)).1 ∧
    (stepCardFrame state focusedIndex i delta card).velocity.x =
      (springSpecAxis card.position.x card.velocity.x
        (cardTargetPos state focusedIndex i card).x
        SPRING_STIFFNESS SPRING_DAMPING (min delta 0.033)).2 ∧
    (stepCardFrame state focusedIndex i delta card).position.y =
      (springSpecAxis card.position.y card.velocity.y
        (cardTargetPos state focusedIndex i card).y
        SPRING_STIFFNESS SPRING_DAMPING (min delta 0.033)).1 ∧
    (stepCardFrame state focusedIndex i delta card).velocity.y =
      (springSpecAxis card.position.y card.velocity.y
        (cardTargetPos state focusedIndex i card).y
        SPRING_STIFFNESS SPRING_DAMPING (min delta 0.033)).2 ∧
    (stepCardFrame state focusedIndex i delta card).position.z =
      (springSpecAxis card.position.z card.velocity.z
        (cardTargetPos state focusedIndex i card).z
        SPRING_STIFFNESS SPRING_DAMPING (min delta 0.033)).1 ∧
    (stepCardFrame state focusedIndex i delta card).velocity.z =
      (springSpecAxis card.position.z card.velocity.z
        (cardTargetPos state focusedIndex i card).z
        SPRING_STIFFNESS SPRING_DAMPING (min delta 0.033)).2 ∧
    (stepCardFrame state focusedIndex i delta card).scale =
      (springSpecAxis card.scale card.scaleVelocity
        (cardTargetScale focusedIndex i)
        SCALE_STIFFNESS SCALE_DAMPING (min delta 0.033)).1 ∧
    (stepCardFrame state focusedIndex i delta card).scaleVelocity =
      (springSpecAxis card.scale card.scaleVelocity
        (cardTargetScale focusedIndex i)
        SCALE_STIFFNESS SCALE_DAMPING (min delta 0.033)).2 := by
  refine ⟨min_le_right _ _, ?_, ?_, ?_, ?_, ?_, ?_, ?_, ?_, ?_⟩ <;>
    simp only [stepCardFrame, integratePosition, integrateScale, springSpecAxis,
      Vec3.add, Vec3.sub, Vec3.smul] <;> ring

/-- C6: for every card index on every frame, a card whose index equals the
focus index targets the fixed focused point with the focused scale;
otherwise it targets its tree layout position when the mode is `"tree"`,
its galaxy layout position for any other mode, always with the ambient
scale. -/
theorem useFrame_target_selection (state : TreeState) (focusedIndex : Option ℕ)
    (i : ℕ) (card : CardData) :
    (focusedIndex = some i →
      cardTargetPos state focusedIndex i card = focusedPoint ∧
      cardTargetScale focusedIndex i = focusedScale) ∧
    (focusedIndex ≠ some i →
      (state = "tree" →
        cardTargetPos state focusedIndex i card = card.treePosition) ∧
      (state ≠ "tree" →
        cardTargetPos state focusedIndex i card = card.galaxyPosition) ∧
      cardTargetScale focusedIndex i = ambientScale) := by
  constructor
  · intro h
    simp [cardTargetPos, cardTargetScale, h]
  · intro h
    exact ⟨fun ht => by simp [cardTargetPos, h, ht],
      fun ht => by simp [cardTargetPos, h, ht],
      by simp [cardTargetScale, h]⟩

/-- Witness for C6 at concrete inputs: a focused card, a non-focused card
in tree mode, and a non-focused card in galaxy mode. -/
theorem useFrame_target_selection_witness :
    cardTargetPos "galaxy" (some 0) 0 sampleCard = focusedPoint ∧
    cardTargetScale (some 0) 0 = focusedScale ∧
    cardTargetPos "tree" none 0 sampleCard = sampleCard.treePosition ∧
    cardTargetPos "galaxy" none 0 sampleCard = sampleCard.galaxyPosition ∧
    cardTargetScale none 0 = ambientScale := by
  have h1 := (useFrame_target_selection "galaxy" (some 0) 0 sampleCard).1 rfl
  have h2 := (useFrame_target_selection "tree" none 0 sampleCard).2 (by decide)
  have h3 := (useFrame_target_selection "galaxy" none 0 sampleCard).2 (by decide)
  exact ⟨h1.1, h1.2, h2.1 rfl, h3.2.1 (by decide), h3.2.2⟩

/-- C3 counterexample: a freshly created card starts at `scale =
initialScale`, the ambient target scale used by the integrator is
`ambientScale`, and `initialScale` is not strictly smaller than it — the
two are both `0.4`, so a new non-focused card does not grow in. -/
theorem initialScale_not_below_targets :
    ((reconcile (fun _ => 1) []
        (photoData ["/picture/new.JPG"] sampleTreeAt sampleGalaxyAt)).map
      CardData.scale = [initialScale]) ∧
    cardTargetScale none 0 = ambientScale ∧
    ¬ initialScale < ambientScale := by
  refine ⟨rfl, rfl, by norm_num [initialScale, ambientScale]⟩

/-- C3 amended: the fixed initial scale of a new or source-changed card
equals the ambient target scale and is strictly smaller than the focused
target scale; every target scale the integrator uses is one of these two. -/
theorem initialScale_equals_ambient_below_focused :
    initialScale = ambientScale ∧ initialScale < focusedScale ∧
    (∀ (freshTime : ℕ → ℚ) (photo : PhotoDatum),
      (reconcile freshTime [] [photo]).map CardData.scale = [initialScale]) ∧
    (∀ (focusedIndex : Option ℕ) (i : ℕ),
      cardTargetScale focusedIndex i = ambientScale ∨
      cardTargetScale focusedIndex i = focusedScale) := by
  refine ⟨rfl, by norm_num [initialScale, focusedScale], ?_, ?_⟩
  · intro ft p
    rfl
  · intro fi i
    unfold cardTargetScale
    split_ifs
    · right; rfl
    · left; rfl

/-- C1 counterexample: replacing only the source at index 0 (`"A"` →
`"/picture/a2.JPG"`) while index 1 keeps its source `"B"`. Two clauses of
the claim fail. First, the memo recomputes and resamples every galaxy
position, and reconciliation takes the new row's sample, so the unchanged
card at index 1 ends with galaxy position `(9,9,9)` instead of its
previous `(3,3,3)`. Second, the changed card at index 0 is not reset: it
keeps its mid-motion velocity `(0,2,0)` instead of being zeroed and its
old position `(1,1,1)` instead of the new tree position `(0,0,0)`; only
its texture is cleared. -/
theorem reconcile_regenerates_galaxy :
    oldCardKeep.textureUrl = "B" ∧
    oldCardKeep.galaxyPosition = ⟨3, 3, 3⟩ ∧
    ((reconcile (fun _ => 1) [oldCardChanged, oldCardKeep]
        (photoData ["/picture/a2.JPG", "B"] sampleTreeAt sampleGalaxyAt))[1]?).map
      CardData.galaxyPosition = some ⟨9, 9, 9⟩ ∧
    some (⟨9, 9, 9⟩ : Vec3) ≠ some oldCardKeep.galaxyPosition ∧
    oldCardChanged.textureUrl = "A" ∧
    ((reconcile (fun _ => 1) [oldCardChanged, oldCardKeep]
        (photoData ["/picture/a2.JPG", "B"] sampleTreeAt sampleGalaxyAt))[0]?).map
      CardData.velocity = some ⟨0, 2, 0⟩ ∧
    some (⟨0, 2, 0⟩ : Vec3) ≠ some (⟨0, 0, 0⟩ : Vec3) ∧
    ((reconcile (fun _ => 1) [oldCardChanged, oldCardKeep]
        (photoData ["/picture/a2.JPG", "B"] sampleTreeAt sampleGalaxyAt))[0]?).map
      CardData.position = some ⟨1, 1, 1⟩ ∧
    ((reconcile (fun _ => 1) [oldCardChanged, oldCardKeep]
        (photoData ["/picture/a2.JPG", "B"] sampleTreeAt sampleGalaxyAt))[0]?).map
      CardData.texture = some none := by
  refine ⟨rfl, rfl, rfl, ?_, rfl, rfl, ?_, rfl, rfl⟩
  · simp [oldCardKeep, Vec3.mk.injEq]
  · norm_num [Vec3.mk.injEq]

/-- C1 amended: every card that still has a predecessor at its index —
source-changed or not — keeps its position, velocity, scale and phase
(the JavaScript `||` fallback means a scale or phase of exactly `0` would
be re-seeded) and its scale velocity, while its tree and galaxy positions
are taken from the new `photoData` row — the galaxy position is resampled
on every reconciliation, not generated once per card lifetime; the
texture is kept exactly when the source identifier is unchanged and
cleared (for reload) when it changed, which is the only reset a changed
card undergoes. -/
theorem reconcile_preserves_unchanged (freshTime : ℕ → ℚ)
    (old : List CardData) (pd : List PhotoDatum) (i : ℕ)
    (e : CardData) (photo : PhotoDatum)
    (he : old[i]? = some e) (hp : pd[i]? = some photo)
    (hscale : e.scale ≠ 0) (htime : e.time ≠ 0) :
    (reconcile freshTime old pd)[i]? = some
      { treePosition := photo.treePosition
        galaxyPosition := photo.galaxyPosition
        position := e.position
        velocity := e.velocity
        scale := e.scale
        scaleVelocity := e.scaleVelocity
        texture := if e.textureUrl = photo.url then e.texture else none
        textureUrl := photo.url
        time := e.time } := by
  unfold reconcile
  rw [getElem?_mapIdx, hp, Option.map_some']
  simp only [he, jsOrQ_self_zero]
  by_cases hurl : e.textureUrl = photo.url
  · simp [hurl, jsOrQ, hscale, htime]
  · simp [hurl, jsOrQ, hscale, htime]

/-- Witness for the amended C1 at the concrete two-card swap scenario,
covering both the unchanged card (index 1, texture kept) and the
source-changed card (index 0, kinematics kept, texture cleared). -/
theorem reconcile_preserves_unchanged_witness :
    ([oldCardChanged, oldCardKeep][1]? = some oldCardKeep) ∧
    ((photoData ["/picture/a2.JPG", "B"] sampleTreeAt sampleGalaxyAt)[1]? =
      some ⟨"B", ⟨0, 0, 0⟩, ⟨9, 9, 9⟩⟩) ∧
    oldCardKeep.scale ≠ 0 ∧ oldCardKeep.time ≠ 0 ∧
    (reconcile (fun _ => 1) [oldCardChanged, oldCardKeep]
        (photoData ["/picture/a2.JPG", "B"] sampleTreeAt sampleGalaxyAt))[1]? =
      some
        { treePosition := (⟨0, 0, 0⟩ : Vec3)
          galaxyPosition := ⟨9, 9, 9⟩
          position := oldCardKeep.position
          velocity := oldCardKeep.velocity
          scale := oldCardKeep.scale
          scaleVelocity := oldCardKeep.scaleVelocity
          texture := oldCardKeep.texture
          textureUrl := "B"
          time := oldCardKeep.time } ∧
    ([oldCardChanged, oldCardKeep][0]? = some oldCardChanged) ∧
    ((photoData ["/picture/a2.JPG", "B"] sampleTreeAt sampleGalaxyAt)[0]? =
      some ⟨"/picture/a2.JPG", ⟨0, 0, 0⟩, ⟨9, 9, 9⟩⟩) ∧
    oldCardChanged.scale ≠ 0 ∧ oldCardChanged.time ≠ 0 ∧
    (reconcile (fun _ => 1) [oldCardChanged, oldCardKeep]
        (photoData ["/picture/a2.JPG", "B"] sampleTreeAt sampleGalaxyAt))[0]? =
      some
        { treePosition := (⟨0, 0, 0⟩ : Vec3)
          galaxyPosition := ⟨9, 9, 9⟩
          position := oldCardChanged.position
          velocity := oldCardChanged.velocity
          scale := oldCardChanged.scale
          scaleVelocity := oldCardChanged.scaleVelocity
          texture := none
          textureUrl := "/picture/a2.JPG"
          time := oldCardChanged.time } :=
  ⟨rfl, rfl, by norm_num [oldCardKeep], by norm_num [oldCardKeep],
    reconcile_preserves_unchanged (fun _ => 1) [oldCardChanged, oldCardKeep]
      (photoData ["/picture/a2.JPG", "B"] sampleTreeAt sampleGalaxyAt) 1
      oldCardKeep ⟨"B", ⟨0, 0, 0⟩, ⟨9, 9, 9⟩⟩
      rfl rfl (by norm_num [oldCardKeep]) (by norm_num [oldCardKeep]),
    rfl, rfl, by norm_num [oldCardChanged], by norm_num [oldCardChanged],
    reconcile_preserves_unchanged (fun _ => 1) [oldCardChanged, oldCardKeep]
      (photoData ["/picture/a2.JPG", "B"] sampleTreeAt sampleGalaxyAt) 0
      oldCardChanged ⟨"/picture/a2.JPG", ⟨0, 0, 0⟩, ⟨9, 9, 9⟩⟩
      rfl rfl (by norm_num [oldCardChanged]) (by norm_num [oldCardChanged])⟩

/-- C2 (bug exhibit): the load callback guards only on a card existing at
the index. At index 0 the source has changed from `"A"` to `"B"` and the
newer `"B"` acquisition has already completed; when the stale `"A"`
acquisition then resolves, it overwrites both the texture and the tracked
url of the newer source instead of being discarded. -/
theorem onTextureLoaded_stale_overwrites :
    ([cardAfterSwap].map CardData.textureUrl = ["B"]) ∧
    ([cardAfterSwap].map CardData.texture = [some "decoded:B"]) ∧
    (onTextureLoaded [cardAfterSwap] 0 "A" "decoded:A").map CardData.texture =
      [some "decoded:A"] ∧
    (onTextureLoaded [cardAfterSwap] 0 "A" "decoded:A").map CardData.textureUrl =
      ["A"] :=
  ⟨rfl, rfl, rfl, rfl⟩

/-- C9: the number of `photoData` rows (one card each, in input order)
equals `min(length of the effective source list, 12)`; the `i`-th row's
url is the `i`-th effective source (none past the 12-entry cap); an empty
or absent input list falls back to the built-in default list; and
reconciliation creates exactly one card per row. -/
theorem photoData_card_count (photos : Option (List String))
    (treeAt : ℕ → ℕ → Vec3) (galaxyAt : ℕ → Vec3) :
    (photoData (effectivePhotoUrls photos) treeAt galaxyAt).length =
      min (effectivePhotoUrls photos).length 12 ∧
    (∀ i : ℕ,
      ((photoData (effectivePhotoUrls photos) treeAt galaxyAt)[i]?).map
          PhotoDatum.url =
        ((effectivePhotoUrls photos).take 12)[i]?) ∧
    (∀ (freshTime : ℕ → ℚ) (old : List CardData),
      (reconcile freshTime old
          (photoData (effectivePhotoUrls photos) treeAt galaxyAt)).length =
        min (effectivePhotoUrls photos).length 12) ∧
    effectivePhotoUrls (some []) = PERMANENT_PHOTOS ∧
    effectivePhotoUrls none = PERMANENT_PHOTOS := by
  refine ⟨?_, ?_, ?_, rfl, rfl⟩
  · simp [photoData, List.length_mapIdx, List.length_take, Nat.min_comm]
  · intro i
    unfold photoData
    rw [getElem?_mapIdx]
    cases h : ((effectivePhotoUrls photos).take 12)[i]? <;> simp [h]
  · intro freshTime old
    simp [reconcile, photoData, List.length_mapIdx, List.length_take,
      Nat.min_comm]

theorem tree_planar_radius (i total : ℕ) (hi : i < total) :
    Real.sqrt ((generateTreePhotoPosition i total).1 ^ 2 +
      (generateTreePhotoPosition i total).2.2 ^ 2) =
    2.8 * (1 - ((i : ℝ) + 0.5) / (total : ℝ) * 0.85) := by
  have htotn : 0 < total := by omega
  have htot : (0:ℝ) < (total : ℝ) := by exact_mod_cast htotn
  have hle : (i : ℝ) + 1 ≤ (total : ℝ) := by exact_mod_cast hi
  have ht1 : ((i : ℝ) + 0.5) / (total : ℝ) < 1 := by
    rw [div_lt_one htot]
    norm_num
    linarith
  have ht0 : 0 ≤ ((i : ℝ) + 0.5) / (total : ℝ) := by positivity
  have hr0 : (0:ℝ) ≤ 2.8 * (1 - ((i : ℝ) + 0.5) / (total : ℝ) * 0.85) := by
    nlinarith
  simp only [generateTreePhotoPosition]
  have hkey :
      (Real.cos (((i : ℝ) + 0.5) / (total : ℝ) * Real.pi * 10 + (i : ℝ) * Real.pi * 0.5) *
          (2.8 * (1 - ((i : ℝ) + 0.5) / (total : ℝ) * 0.85))) ^ 2 +
        (Real.sin (((i : ℝ) + 0.5) / (total : ℝ) * Real.pi * 10 + (i : ℝ) * Real.pi * 0.5) *
          (2.8 * (1 - ((i : ℝ) + 0.5) / (total : ℝ) * 0.85))) ^ 2 =
      (2.8 * (1 - ((i : ℝ) + 0.5) / (total : ℝ) * 0.85)) ^ 2 := by
    have hpy := Real.sin_sq_add_cos_sq
      (((i : ℝ) + 0.5) / (total : ℝ) * Real.pi * 10 + (i : ℝ) * Real.pi * 0.5)
    linear_combination (2.8 * (1 - ((i : ℝ) + 0.5) / (total : ℝ) * 0.85)) ^ 2 * hpy
  rw [hkey, Real.sqrt_sq hr0]

/-- C7: for `0 ≤ i1 < i2 < total`, the tree layout's height coordinate is
monotonically non-decreasing in the index, and its planar radius
`√(x² + z²)` is strictly decreasing in the index — equivalently strictly
decreasing in `t = (index + 0.5)/total`, which is strictly increasing in
the index for fixed `total`. -/
theorem generateTreePhotoPosition_monotone (total i1 i2 : ℕ)
    (h12 : i1 < i2) (h2 : i2 < total) :
    (generateTreePhotoPosition i1 total).2.1 ≤
      (generateTreePhotoPosition i2 total).2.1 ∧
    Real.sqrt ((generateTreePhotoPosition i2 total).1 ^ 2 +
        (generateTreePhotoPosition i2 total).2.2 ^ 2) <
      Real.sqrt ((generateTreePhotoPosition i1 total).1 ^ 2 +
        (generateTreePhotoPosition i1 total).2.2 ^ 2) := by
  have h1 : i1 < total := h12.trans h2
  have htotn : 0 < total := by omega
  have htot : (0:ℝ) < (total : ℝ) := by exact_mod_cast htotn
  have hti : ((i1 : ℝ) + 0.5) / (total : ℝ) < ((i2 : ℝ) + 0.5) / (total : ℝ) := by
    have hlt : (i1 : ℝ) < (i2 : ℝ) := by exact_mod_cast h12
    exact (div_lt_div_iff_of_pos_right htot).mpr (by linarith)
  constructor
  · simp only [generateTreePhotoPosition]
    linarith
  · rw [tree_planar_radius i1 total h1, tree_planar_radius i2 total h2]
    linarith

/-- Witness for C7 at `total = 3`, indices `0 < 1`. -/
theorem generateTreePhotoPosition_monotone_witness :
    (0 < 1 ∧ 1 < 3) ∧
    ((generateTreePhotoPosition 0 3).2.1 ≤ (generateTreePhotoPosition 1 3).2.1 ∧
      Real.sqrt ((generateTreePhotoPosition 1 3).1 ^ 2 +
          (generateTreePhotoPosition 1 3).2.2 ^ 2) <
        Real.sqrt ((generateTreePhotoPosition 0 3).1 ^ 2 +
          (generateTreePhotoPosition 0 3).2.2 ^ 2)) :=
  ⟨⟨by norm_num, by norm_num⟩,
    generateTreePhotoPosition_monotone 3 0 1 (by norm_num) (by norm_num)⟩

/-- C8: for every choice of the three random samples in `[0,1)`, the
Euclidean magnitude of the galaxy sample point before the vertical
flattening factor is applied lies within `[4, 10]` (`[rMin, rMin+rSpan]`
with `rMin = 4`, `rSpan = 6`); the emitted point is the pre-flatten point
with its vertical component scaled by `0.5`. -/
theorem generateGalaxyPhotoPosition_shell (u1 u2 u3 : ℝ)
    (h10 : 0 ≤ u1) (h11 : u1 < 1) (h20 : 0 ≤ u2) (h21 : u2 < 1)
    (h30 : 0 ≤ u3) (h31 : u3 < 1) :
    4 ≤ Real.sqrt ((galaxyPreFlatten u1 u2 u3).1 ^ 2 +
        (galaxyPreFlatten u1 u2 u3).2.1 ^ 2 +
        (galaxyPreFlatten u1 u2 u3).2.2 ^ 2) ∧
    Real.sqrt ((galaxyPreFlatten u1 u2 u3).1 ^ 2 +
        (galaxyPreFlatten u1 u2 u3).2.1 ^ 2 +
        (galaxyPreFlatten u1 u2 u3).2.2 ^ 2) ≤ 10 ∧
    generateGalaxyPhotoPosition u1 u2 u3 =
      ((galaxyPreFlatten u1 u2 u3).1, (galaxyPreFlatten u1 u2 u3).2.1 * 0.5,
        (galaxyPreFlatten u1 u2 u3).2.2) := by
  have hr0 : (0:ℝ) ≤ 4 + u1 * 6 := by linarith
  have hkey : (galaxyPreFlatten u1 u2 u3).1 ^ 2 +
      (galaxyPreFlatten u1 u2 u3).2.1 ^ 2 +
      (galaxyPreFlatten u1 u2 u3).2.2 ^ 2 = (4 + u1 * 6) ^ 2 := by
    simp only [galaxyPreFlatten]
    have ht := Real.sin_sq_add_cos_sq (u2 * Real.pi * 2)
    have hp := Real.sin_sq_add_cos_sq (Real.arccos (2 * u3 - 1))
    linear_combination
      ((4 + u1 * 6) ^ 2 * Real.sin (Real.arccos (2 * u3 - 1)) ^ 2) * ht +
        (4 + u1 * 6) ^ 2 * hp
  rw [hkey, Real.sqrt_sq hr0]
  refine ⟨by linarith, by linarith, rfl⟩

/-- Witness for C8 at samples `(1/2, 1/2, 1/2)`. -/
theorem generateGalaxyPhotoPosition_shell_witness :
    ((0:ℝ) ≤ 1/2 ∧ (1/2 : ℝ) < 1) ∧
    4 ≤ Real.sqrt ((galaxyPreFlatten (1/2) (1/2) (1/2)).1 ^ 2 +
        (galaxyPreFlatten (1/2) (1/2) (1/2)).2.1 ^ 2 +
        (galaxyPreFlatten (1/2) (1/2) (1/2)).2.2 ^ 2) :=
  ⟨⟨by norm_num, by norm_num⟩,
    (generateGalaxyPhotoPosition_shell (1/2) (1/2) (1/2) (by norm_num) (by norm_num)
      (by norm_num) (by norm_num) (by norm_num) (by norm_num)).1⟩

end PhotoCards
